import Mathlib

/-!
Shallow embedding of `src/static/app/components/autoComplete.tsx` (the
`AutoComplete` selection controller).

State (`this.state`), instance fields (`this.items`, `this.itemCount`) and the
configuration props are embedded as Lean structures; each event handler of the
component becomes a pure function from the component value to a new component
value together with the list of observable effects it produced (notification
callbacks, `preventDefault`, the `console.warn` call).  The two `setTimeout`
timers (`blurTimeout`, `cancelCloseTimeout`) and the deferred close of
`handleClickOutside` are embedded as a small discrete-event world holding the
pending deadline of each timer.
-/

namespace AutoComplete

/-- `this.state` of the component (`State<T>` in the source). -/
structure CState (T : Type) where
  isOpen : Bool
  highlightedIndex : Nat
  inputValue : String
  selectedItem : Option T
  deriving Repr, DecidableEq

/-- The configuration props of one instance, with the source's `defaultProps`
as Lean default field values.  `isOpen? : Option Bool` models the optional
`isOpen` prop that switches the instance into controlled mode. -/
structure CProps (T : Type) where
  itemToString : T → String := fun _ => ""
  inputIsActor : Bool := true
  disabled : Bool := false
  closeOnSelect : Bool := true
  shouldSelectWithEnter : Bool := true
  shouldSelectWithTab : Bool := false
  resetInputOnClose : Bool := false
  defaultHighlightedIndex : Option Nat := none
  defaultInputValue : Option String := none
  isOpenProp : Option Bool := none

/-- Observable effects of one handler invocation: the optional notification
callbacks the controller fires, `e.preventDefault()`, the user `onBlur`
callback run by the blur timer, and the `console.warn` in `getItemProps`.
`onSelect` records the item and the state passed (`this.state` at call time)
and the originating event (as an opaque id). -/
inductive Effect (T : Type) where
  | onOpen : Effect T
  | onClose : Effect T
  | onSelect (item : T) (st : CState T) (ev : Nat) : Effect T
  | preventDefault : Effect T
  | blurUserCallback : Effect T
  | warn : Effect T
  deriving Repr, DecidableEq

/-- The item registry `this.items : Map<number, T>`.  An association list from
index to the registered value; the stored value is an `Option T` because the
source can register `undefined` when `getItemProps` is called without an item
(`this.items.set(newIndex, item)` with `item` undefined). -/
abbrev Registry (T : Type) : Type := List (Nat × Option T)

/-- `Map.prototype.has`. -/
def Registry.hasIdx {T : Type} (m : Registry T) (k : Nat) : Bool :=
  m.any fun p => p.1 == k

/-- `Map.prototype.get`: `none` when the key is absent, `some v` when the key
maps to the (possibly undefined) value `v`. -/
def Registry.getIdx {T : Type} (m : Registry T) (k : Nat) : Option (Option T) :=
  (m.find? fun p => p.1 == k).map Prod.snd

/-- `Map.prototype.set`: replace the value at an existing key, else append. -/
def Registry.setIdx {T : Type} (m : Registry T) (k : Nat) (v : Option T) : Registry T :=
  if m.any (fun p => p.1 == k) then
    m.map fun p => if p.1 == k then (k, v) else p
  else
    m ++ [(k, v)]

/-- `Map.prototype.size` (keys are kept distinct by `setIdx`). -/
def Registry.size {T : Type} (m : Registry T) : Nat := m.length

/-- One component instance: props, React state, and the instance fields
`items` and `itemCount`. -/
structure AC (T : Type) where
  props : CProps T
  state : CState T
  items : Registry T
  itemCount : Option Nat := none

variable {T : Type}

/-- `get isControlled() { return typeof this.props.isOpen !== 'undefined' }`. -/
def AC.isControlled (c : AC T) : Bool := c.props.isOpenProp.isSome

/-- `get isOpen() { return this.isControlled ? this.props.isOpen : this.state.isOpen }`. -/
def AC.visibleIsOpen (c : AC T) : Bool := c.props.isOpenProp.getD c.state.isOpen

/-- `resetHighlightState`: `setState({highlightedIndex: defaultHighlightedIndex ?? 0})`. -/
def AC.resetHighlightState (c : AC T) : AC T :=
  { c with state := { c.state with highlightedIndex := c.props.defaultHighlightedIndex.getD 0 } }

/-- `openMenu`: fire `onOpen`, stop if disabled or controlled, otherwise reset
highlight state and set `isOpen: true`. -/
def AC.openMenu (c : AC T) : AC T × List (Effect T) :=
  if c.props.disabled || c.isControlled then
    (c, [Effect.onOpen])
  else
    let c1 := c.resetHighlightState
    ({ c1 with state := { c1.state with isOpen := true } }, [Effect.onOpen])

/-- `closeMenu`: fire `onClose`, stop if controlled, otherwise set
`isOpen: false` and clear `inputValue` when `resetInputOnClose`. -/
def AC.closeMenu (c : AC T) : AC T × List (Effect T) :=
  if c.isControlled then
    (c, [Effect.onClose])
  else
    ({ c with state := { c.state with
        isOpen := false,
        inputValue := if c.props.resetInputOnClose then "" else c.state.inputValue } },
     [Effect.onClose])

/-- `handleSelect(item, e)`: fire `onSelect(item, this.state, e)`; when
`closeOnSelect`, close the menu then set `inputValue = itemToString(item)` and
`selectedItem = item`; otherwise only set `selectedItem = item`. -/
def AC.handleSelect (c : AC T) (item : T) (ev : Nat) : AC T × List (Effect T) :=
  let sel : List (Effect T) := [Effect.onSelect item c.state ev]
  if c.props.closeOnSelect then
    let (c1, e1) := c.closeMenu
    ({ c1 with state := { c1.state with
        inputValue := c.props.itemToString item,
        selectedItem := some item } },
     sel ++ e1)
  else
    ({ c with state := { c.state with selectedItem := some item } }, sel)

/-- `moveHighlightedIndex(step)`: clamp `highlightedIndex + step` into
`[0, listSize - 1]` with `listSize = this.itemCount ?? this.items.size`
(`Math.max(0, Math.min(newIndex, listSize - 1))` over JS numbers, hence
computed in `Int`). -/
def AC.moveHighlightedIndex (c : AC T) (step : Int) : AC T :=
  let listSize : Nat := c.itemCount.getD c.items.size
  let newIndex : Int :=
    max 0 (min ((c.state.highlightedIndex : Int) + step) ((listSize : Int) - 1))
  { c with state := { c.state with highlightedIndex := newIndex.toNat } }

/-- `effectiveCount`: the navigable item count used for clamping,
`itemCount` when supplied, else the registry size. -/
def AC.effectiveCount (c : AC T) : Nat := c.itemCount.getD c.items.size

/-- The handler produced by `makeHandleInputChange`: `openMenu()` then
`setState({inputValue: value})` (the caller-supplied `onChange` is outside the
controller's own logic and not modelled). -/
def AC.handleInputChange (c : AC T) (value : String) : AC T × List (Effect T) :=
  let (c1, e1) := c.openMenu
  ({ c1 with state := { c1.state with inputValue := value } }, e1)

/-- The structural bound `T extends Item` of the source: every item exposes an
optional `disabled` flag (absent reads as `false`) and an optional
`data-test-id` string. -/
class ItemLike (T : Type) where
  disabled : T → Bool
  dataTestId : T → Option String

/-- The `e.key` values the keydown handler distinguishes. -/
inductive Key where
  | enter | tab | arrowUp | arrowDown | escape | other
  deriving Repr, DecidableEq

/-- The handler produced by `makeHandleInputKeydown`: the Enter/Tab selection
block (guarded by `items.has(highlightedIndex)` and the
`shouldSelectWithEnter`/`shouldSelectWithTab` flags, with `preventDefault`
called whenever the guard holds and the selection itself additionally guarded
by `item && !item.disabled`), then the ArrowUp/ArrowDown/Escape branches. -/
def AC.handleInputKeydown [ItemLike T] (c : AC T) (k : Key) (ev : Nat) :
    AC T × List (Effect T) :=
  let hasHighlightedItem := c.items.hasIdx c.state.highlightedIndex
  let step1 : AC T × List (Effect T) :=
    if hasHighlightedItem = true ∧
        ((c.props.shouldSelectWithEnter = true ∧ k = Key.enter) ∨
         (c.props.shouldSelectWithTab = true ∧ k = Key.tab)) then
      let selected : AC T × List (Effect T) :=
        match c.items.getIdx c.state.highlightedIndex with
        | some (some item) =>
            if ItemLike.disabled item = false then c.handleSelect item ev else (c, [])
        | _ => (c, [])
      (selected.1, selected.2 ++ [Effect.preventDefault])
    else (c, [])
  let step2 : AC T × List (Effect T) :=
    if k = Key.arrowUp then
      (step1.1.moveHighlightedIndex (-1), step1.2 ++ [Effect.preventDefault])
    else step1
  let step3 : AC T × List (Effect T) :=
    if k = Key.arrowDown then
      (step2.1.moveHighlightedIndex 1, step2.2 ++ [Effect.preventDefault])
    else step2
  if k = Key.escape then
    let (c4, e4) := step3.1.closeMenu
    (c4, step3.2 ++ e4)
  else step3

/-- The handler produced by `makeHandleItemClick`: stop when the item is
disabled, otherwise set `highlightedIndex` to the item's index and run
`handleSelect` (the `clearTimeout(this.blurTimeout)` part lives in the timer
world below). -/
def AC.handleItemClick [ItemLike T] (c : AC T) (item : T) (index : Nat) (ev : Nat) :
    AC T × List (Effect T) :=
  if ItemLike.disabled item then (c, [])
  else
    let c1 := { c with state := { c.state with highlightedIndex := index } }
    c1.handleSelect item ev

/-- `UNSAFE_componentWillReceiveProps(nextProps, nextState)`: skip the
highlight reset when `closeOnSelect` is off and `this.state.selectedItem`
differs from `nextState.selectedItem`; otherwise reset. -/
def AC.componentWillReceiveProps [DecidableEq T] (c : AC T)
    (nextCloseOnSelect : Bool) (nextSelectedItem : Option T) : AC T :=
  if !nextCloseOnSelect && c.state.selectedItem != nextSelectedItem then c
  else c.resetHighlightState

/-- The prop bundle built by `getItemProps` (the parts the controller itself
fills in: the forwarded `data-test-id` and the index baked into the click and
mouse-enter closures). -/
structure ItemPropsOut where
  dataTestId : Option String
  boundIndex : Nat
  deriving Repr, DecidableEq

/-- `getItemProps({item, index, ...})`: warn when `item` is missing, register
`this.items.set(newIndex, item)` with `newIndex = index ?? this.items.size`,
then build the returned props — reading `item['data-test-id']` throws a
`TypeError` when `item` is `undefined`, modelled as `Except.error ()`
(the warning and the registration have already happened by then). -/
def AC.getItemProps [ItemLike T] (c : AC T) (item : Option T) (index : Option Nat) :
    AC T × List (Effect T) × Except Unit ItemPropsOut :=
  let warnEffects : List (Effect T) := if item.isNone then [Effect.warn] else []
  let newIndex := index.getD c.items.size
  let c1 := { c with items := c.items.setIdx newIndex item }
  match item with
  | none => (c1, warnEffects, Except.error ())
  | some it =>
      (c1, warnEffects,
       Except.ok { dataTestId := ItemLike.dataTestId it, boundIndex := newIndex })

/-! ### Timer world

`blurTimeout` (armed by the input-blur handler with a 200ms delay),
`cancelCloseTimeout` (armed by the menu mousedown handler with no delay) and
the awaited zero-delay tick inside `handleClickOutside` are modelled as
pending deadlines in a world record.  Event handlers run synchronously (they
only mutate the component and re-arm timers); pending timers then fire in
deadline order, earlier-armed timer first on a tie. -/

/-- The three deferred actions. -/
inductive TimerKind where
  | blurClose | cancelClose | outsideClose
  deriving Repr, DecidableEq

/-- A component together with the accumulated effects and the pending
deadline (absolute time) of each of the three timers. -/
structure World (T : Type) where
  comp : AC T
  effects : List (Effect T) := []
  blurDeadline : Option Nat := none
  cancelDeadline : Option Nat := none
  outsideCloseDeadline : Option Nat := none

/-- The handler produced by `makehandleInputBlur` at time `now`:
`clearTimeout(this.blurTimeout)` then re-arm it 200 units out; the
`closeMenu` and the user `onBlur` run only when the timer fires. -/
def World.inputBlur (w : World T) (now : Nat) : World T :=
  { w with blurDeadline := some (now + 200) }

/-- `handleMenuMouseDown` at time `now`: `clearTimeout(this.cancelCloseTimeout)`
then re-arm it with no delay; clearing `blurTimeout` happens when it fires. -/
def World.menuMouseDown (w : World T) (now : Nat) : World T :=
  { w with cancelDeadline := some now }

/-- The synchronous part of `handleClickOutside` at time `now`:
`clearTimeout(this.blurTimeout)` immediately, then await a zero-delay timer;
the `closeMenu()` after the `await` runs when that timer fires. -/
def World.clickOutside (w : World T) (now : Nat) : World T :=
  { w with blurDeadline := none, outsideCloseDeadline := some now }

/-- The pending timers, listed in arming-order for deadline ties (a pending
`blurTimeout` was armed 200 units before its deadline, so it is first). -/
def World.pendingTimers (w : World T) : List (TimerKind × Nat) :=
  (match w.blurDeadline with
   | some d => [(TimerKind.blurClose, d)] | none => []) ++
  (match w.cancelDeadline with
   | some d => [(TimerKind.cancelClose, d)] | none => []) ++
  (match w.outsideCloseDeadline with
   | some d => [(TimerKind.outsideClose, d)] | none => [])

/-- The next timer the host fires: minimal deadline, first-armed on ties. -/
def World.dueTimer (w : World T) : Option (TimerKind × Nat) :=
  w.pendingTimers.foldl
    (fun acc p =>
      match acc with
      | none => some p
      | some q => if p.2 < q.2 then some p else some q)
    none

/-- Fire the next due timer: the blur timer runs `closeMenu()` then the user
`onBlur`; the cancel-close timer runs `clearTimeout(this.blurTimeout)`; the
outside-close tick runs `closeMenu()`. -/
def World.fireTimer (w : World T) : World T :=
  match w.dueTimer with
  | none => w
  | some (TimerKind.blurClose, _) =>
      let r := w.comp.closeMenu
      { w with comp := r.1, effects := w.effects ++ r.2 ++ [Effect.blurUserCallback],
               blurDeadline := none }
  | some (TimerKind.cancelClose, _) =>
      { w with cancelDeadline := none, blurDeadline := none }
  | some (TimerKind.outsideClose, _) =>
      let r := w.comp.closeMenu
      { w with comp := r.1, effects := w.effects ++ r.2,
               outsideCloseDeadline := none }

/-- Let every pending timer fire (no timer ever re-arms another, and at most
three are pending, so three steps reach quiescence). -/
def World.runTimers (w : World T) : World T := w.fireTimer.fireTimer.fireTimer

/-- A quiescent world around a component: no effects yet, no pending timer. -/
def World.init (c : AC T) : World T := { comp := c }

/-- A world in which a blur has armed the close timer with deadline `d`. -/
def World.afterBlur (c : AC T) (d : Nat) : World T := { comp := c, blurDeadline := some d }

/-! ### Concrete fixtures for witnesses and counterexamples -/

/-- A concrete item type instantiating the `T extends Item` bound. -/
structure TestItem where
  id : Nat
  dis : Bool := false
  deriving Repr, DecidableEq

instance : ItemLike TestItem where
  disabled i := i.dis
  dataTestId _ := none

/-- `foldl` of `moveHighlightedIndex` over a sequence of steps (a run of
ArrowUp = −1 / ArrowDown = +1 moves). -/
def AC.applyMoves (c : AC T) (steps : List Int) : AC T :=
  steps.foldl (fun a s => a.moveHighlightedIndex s) c

/-- A two-item controller with the default configuration (so
`closeOnSelect = true`), menu open, highlight on the second item. -/
def c1ex : AC TestItem where
  props := {}
  state := { isOpen := true, highlightedIndex := 1, inputValue := "se", selectedItem := none }
  items := [(0, some ⟨1, false⟩), (1, some ⟨2, false⟩)]

/-- A three-item controller with the default configuration, menu open,
highlight at index 0. -/
def c2ex : AC TestItem where
  props := {}
  state := { isOpen := true, highlightedIndex := 0, inputValue := "", selectedItem := none }
  items := [(0, some ⟨1, false⟩), (1, some ⟨2, false⟩), (2, some ⟨3, false⟩)]

/-- A disabled, uncontrolled controller with the menu closed. -/
def c3ex : AC TestItem where
  props := { disabled := true }
  state := { isOpen := false, highlightedIndex := 0, inputValue := "", selectedItem := none }
  items := []

/-- An uncontrolled controller with `closeOnSelect = false`, no selection yet,
and the highlight parked at index 7 (default highlight index 0). -/
def c4ex : AC TestItem where
  props := { closeOnSelect := false }
  state := { isOpen := true, highlightedIndex := 7, inputValue := "x", selectedItem := none }
  items := [(0, some ⟨1, false⟩), (1, some ⟨2, false⟩)]

/-- Like `c4ex` but with item 1 already selected. -/
def c4ex2 : AC TestItem where
  props := { closeOnSelect := false }
  state := { isOpen := true, highlightedIndex := 7, inputValue := "x",
             selectedItem := some ⟨1, false⟩ }
  items := [(0, some ⟨1, false⟩), (1, some ⟨2, false⟩)]

/-- A controlled controller (explicit `isOpen` prop) with the highlight
parked at index 5 (default highlight index 0). -/
def c5ex : AC TestItem where
  props := { isOpenProp := some false }
  state := { isOpen := false, highlightedIndex := 5, inputValue := "", selectedItem := none }
  items := [(0, some ⟨1, false⟩)]

/-- A default-configured controller whose highlighted item is registered but
disabled. -/
def c8ex : AC TestItem where
  props := {}
  state := { isOpen := true, highlightedIndex := 0, inputValue := "", selectedItem := none }
  items := [(0, some ⟨1, true⟩)]

/-- A default-configured controller with `itemCount = 100` (virtualization)
but only one registered item, highlight outside the registry. -/
def c10ex : AC TestItem where
  props := {}
  state := { isOpen := true, highlightedIndex := 50, inputValue := "", selectedItem := none }
  items := [(0, some ⟨1, false⟩)]
  itemCount := some 100

end AutoComplete

open AutoComplete

theorem moveHighlightedIndex_effectiveCount {T : Type} (c : AC T) (s : Int) :
    (c.moveHighlightedIndex s).effectiveCount = c.effectiveCount := rfl

theorem moveHighlightedIndex_lt {T : Type} (c : AC T) (s : Int)
    (h : 0 < c.effectiveCount) :
    (c.moveHighlightedIndex s).state.highlightedIndex < c.effectiveCount := by
  rcases c with ⟨props, st, items, itemCount⟩
  cases itemCount <;>
    simp only [AC.moveHighlightedIndex, AC.effectiveCount, Registry.size,
      Option.getD_none, Option.getD_some] at * <;>
    omega

theorem applyMoves_lt {T : Type} (c : AC T) (s : Int) (steps : List Int)
    (h : 0 < c.effectiveCount) :
    (c.applyMoves (s :: steps)).state.highlightedIndex < c.effectiveCount := by
  induction steps generalizing c s with
  | nil => exact moveHighlightedIndex_lt c s h
  | cons s' rest ih =>
      have h' : 0 < (c.moveHighlightedIndex s).effectiveCount := by
        rw [moveHighlightedIndex_effectiveCount]; exact h
      have := ih (c.moveHighlightedIndex s) s' h'
      rw [moveHighlightedIndex_effectiveCount] at this
      exact this

/-- C2: `moveHighlightedIndex` computes
`clamp(currentIndex + step, 0, effectiveCount - 1)` with
`effectiveCount = itemCount if set else registry size`; consequently, for any
nonempty sequence of ArrowUp (−1) / ArrowDown (+1) moves the resulting
`highlightedIndex` stays within `[0, effectiveCount − 1]`, a −1 move at
index 0 stays at 0, and a +1 move at the last index stays at the last index
(no wraparound). -/
theorem c2_clamped_navigation {T : Type} (c : AC T) (h : 0 < c.effectiveCount) :
    (∀ step : Int,
      (c.moveHighlightedIndex step).state.highlightedIndex
        = (max 0 (min ((c.state.highlightedIndex : Int) + step)
            ((c.effectiveCount : Int) - 1))).toNat) ∧
    (∀ (s : Int) (steps : List Int),
      (c.applyMoves (s :: steps)).state.highlightedIndex ≤ c.effectiveCount - 1) ∧
    (c.state.highlightedIndex = 0 →
      (c.moveHighlightedIndex (-1)).state.highlightedIndex = 0) ∧
    (c.state.highlightedIndex = c.effectiveCount - 1 →
      (c.moveHighlightedIndex 1).state.highlightedIndex = c.effectiveCount - 1) := by
  refine ⟨fun step => rfl, fun s steps => ?_, fun h0 => ?_, fun hlast => ?_⟩
  · have := applyMoves_lt c s steps h
    omega
  · rcases c with ⟨props, st, items, itemCount⟩
    simp only [AC.effectiveCount] at *
    cases itemCount <;>
      simp only [AC.moveHighlightedIndex, Option.getD_none, Option.getD_some] <;>
      omega
  · rcases c with ⟨props, st, items, itemCount⟩
    simp only [AC.effectiveCount] at *
    cases itemCount <;>
      simp only [AC.moveHighlightedIndex, Option.getD_none, Option.getD_some] at * <;>
      omega

/-- Witness for C2: the three-item fixture satisfies the hypothesis, four
ArrowDown moves stay at the last index, ArrowUp at 0 stays at 0. -/
theorem c2_clamped_navigation_witness :
    0 < c2ex.effectiveCount ∧
    (c2ex.applyMoves [1, 1, 1, 1]).state.highlightedIndex ≤ c2ex.effectiveCount - 1 ∧
    (c2ex.moveHighlightedIndex (-1)).state.highlightedIndex = 0 :=
  ⟨by decide,
   (c2_clamped_navigation c2ex (by decide)).2.1 1 [1, 1, 1],
   (c2_clamped_navigation c2ex (by decide)).2.2.1 (by decide)⟩

theorem Registry.hasIdx_of_getIdx {T : Type} {m : Registry T} {k : Nat} {v : Option T}
    (h : m.getIdx k = some v) : m.hasIdx k = true := by
  unfold Registry.getIdx at h
  unfold Registry.hasIdx
  cases hf : m.find? (fun p => p.1 == k) with
  | none => rw [hf] at h; simp at h
  | some p =>
      have hp := List.find?_some hf
      have hmem := List.mem_of_find?_eq_some hf
      exact List.any_eq_true.mpr ⟨p, hmem, hp⟩

theorem handleSelect_closeOnSelect {T : Type} (c : AC T) (X : T) (ev : Nat)
    (h : c.props.closeOnSelect = true) :
    (c.handleSelect X ev).2 = [Effect.onSelect X c.state ev, Effect.onClose] ∧
    (c.handleSelect X ev).1.state.inputValue = c.props.itemToString X ∧
    (c.handleSelect X ev).1.state.selectedItem = some X ∧
    (c.isControlled = false → (c.handleSelect X ev).1.state.isOpen = false) := by
  by_cases hc : c.isControlled <;>
    simp [AC.handleSelect, AC.closeMenu, h, hc]

theorem handleInputKeydown_select {T : Type} [ItemLike T] (c : AC T) (X : T)
    (ev : Nat) (k : Key)
    (hk : (k = Key.enter ∧ c.props.shouldSelectWithEnter = true) ∨
          (k = Key.tab ∧ c.props.shouldSelectWithTab = true))
    (hget : c.items.getIdx c.state.highlightedIndex = some (some X))
    (hdis : ItemLike.disabled X = false) :
    c.handleInputKeydown k ev
      = ((c.handleSelect X ev).1, (c.handleSelect X ev).2 ++ [Effect.preventDefault]) := by
  have hhas := Registry.hasIdx_of_getIdx hget
  rcases hk with ⟨rfl, hsel⟩ | ⟨rfl, hsel⟩ <;>
    simp [AC.handleInputKeydown, hhas, hsel, hget, hdis]

/-- C1: with `closeOnSelect = true`, every selection — via the common
`handleSelect` routine, via an Enter or Tab keydown on a registered,
non-disabled highlighted item, or via an item click — invokes
`onSelect(X, currentState, event)`, and the resulting state has
`inputValue = itemToString X`, `selectedItem = X`, and, in uncontrolled mode,
`isOpen = false`. -/
theorem c1_selection_outcome {T : Type} [ItemLike T] (c : AC T) (X : T) (ev : Nat)
    (hclose : c.props.closeOnSelect = true) :
    ((c.handleSelect X ev).2 = [Effect.onSelect X c.state ev, Effect.onClose] ∧
      (c.handleSelect X ev).1.state.inputValue = c.props.itemToString X ∧
      (c.handleSelect X ev).1.state.selectedItem = some X ∧
      (c.isControlled = false → (c.handleSelect X ev).1.state.isOpen = false)) ∧
    (∀ k : Key,
      ((k = Key.enter ∧ c.props.shouldSelectWithEnter = true) ∨
       (k = Key.tab ∧ c.props.shouldSelectWithTab = true)) →
      c.items.getIdx c.state.highlightedIndex = some (some X) →
      ItemLike.disabled X = false →
      Effect.onSelect X c.state ev ∈ (c.handleInputKeydown k ev).2 ∧
      (c.handleInputKeydown k ev).1.state.inputValue = c.props.itemToString X ∧
      (c.handleInputKeydown k ev).1.state.selectedItem = some X ∧
      (c.isControlled = false → (c.handleInputKeydown k ev).1.state.isOpen = false)) ∧
    (∀ idx : Nat, ItemLike.disabled X = false →
      (∃ st, Effect.onSelect X st ev ∈ (c.handleItemClick X idx ev).2) ∧
      (c.handleItemClick X idx ev).1.state.inputValue = c.props.itemToString X ∧
      (c.handleItemClick X idx ev).1.state.selectedItem = some X ∧
      (c.isControlled = false → (c.handleItemClick X idx ev).1.state.isOpen = false)) := by
  refine ⟨handleSelect_closeOnSelect c X ev hclose, fun k hk hget hdis => ?_,
    fun idx hdis => ?_⟩
  · rw [handleInputKeydown_select c X ev k hk hget hdis]
    obtain ⟨he, hi, hs, ho⟩ := handleSelect_closeOnSelect c X ev hclose
    exact ⟨by rw [he]; simp, hi, hs, ho⟩
  · have hclick : c.handleItemClick X idx ev
        = ({ c with state := { c.state with highlightedIndex := idx } } : AC T).handleSelect X ev := by
      simp [AC.handleItemClick, hdis]
    obtain ⟨he, hi, hs, ho⟩ := handleSelect_closeOnSelect
      ({ c with state := { c.state with highlightedIndex := idx } } : AC T) X ev hclose
    rw [hclick]
    refine ⟨⟨{ c.state with highlightedIndex := idx }, ?_⟩, hi, hs, ho⟩
    rw [he]
    exact List.mem_cons_self _ _

/-- Witness for C1: selecting item 2 on the concrete two-item controller sets
the input text to `itemToString` of the item (`""` under the default
`itemToString`), records it as selected, and closes the menu. -/
theorem c1_selection_outcome_witness :
    c1ex.props.closeOnSelect = true ∧
    (c1ex.handleSelect ⟨2, false⟩ 5).1.state.inputValue
      = c1ex.props.itemToString ⟨2, false⟩ ∧
    (c1ex.handleSelect ⟨2, false⟩ 5).1.state.selectedItem = some ⟨2, false⟩ ∧
    (c1ex.handleSelect ⟨2, false⟩ 5).1.state.isOpen = false :=
  ⟨by decide,
   (c1_selection_outcome c1ex ⟨2, false⟩ 5 (by decide)).1.2.1,
   (c1_selection_outcome c1ex ⟨2, false⟩ 5 (by decide)).1.2.2.1,
   (c1_selection_outcome c1ex ⟨2, false⟩ 5 (by decide)).1.2.2.2 (by decide)⟩

/-- C3 counterexample: on a disabled, uncontrolled controller whose menu is
closed, a change event updates `inputValue` but leaves `isOpen = false`
(`openMenu` returns before touching state when `disabled`), refuting
"regardless of prior open state ... the resulting state has isOpen = true". -/
theorem c3_open_on_edit_cex :
    c3ex.isControlled = false ∧
    (c3ex.handleInputChange "a").1.state.inputValue = "a" ∧
    (c3ex.handleInputChange "a").1.state.isOpen = false := by
  decide

/-- C3 (amended): for every change event on a **non-disabled** controller,
the handler force-opens the menu (resetting the highlight to the default
index) and then sets `inputValue` to the event's new text, so in uncontrolled
mode the resulting state has `isOpen = true` and `inputValue` equal to the
typed text, whatever the prior open state. -/
theorem c3_open_on_edit {T : Type} (c : AC T) (v : String)
    (hdis : c.props.disabled = false) (hctl : c.isControlled = false) :
    (c.handleInputChange v).2 = [Effect.onOpen] ∧
    (c.handleInputChange v).1.state.isOpen = true ∧
    (c.handleInputChange v).1.state.inputValue = v ∧
    (c.handleInputChange v).1.state.highlightedIndex
      = c.props.defaultHighlightedIndex.getD 0 := by
  simp [AC.handleInputChange, AC.openMenu, AC.resetHighlightState, hdis, hctl]

/-- Witness for C3 on the concrete enabled, uncontrolled, closed-menu
controller: typing reopens the menu with the typed text. -/
theorem c3_open_on_edit_witness :
    c2ex.props.disabled = false ∧ c2ex.isControlled = false ∧
    (c2ex.handleInputChange "ab").1.state.isOpen = true ∧
    (c2ex.handleInputChange "ab").1.state.inputValue = "ab" :=
  ⟨by decide, by decide,
   (c3_open_on_edit c2ex "ab" (by decide) (by decide)).2.1,
   (c3_open_on_edit c2ex "ab" (by decide) (by decide)).2.2.1⟩

/-- C4 counterexample: with `closeOnSelect = false`, no prior selection, and
the highlight parked at 7, selecting item 1 (which differs from the previous
selection) leaves the highlight at 7 on the subsequent props-receive pass —
the code *skips* the reset exactly when the selection differs
(`if (!nextProps.closeOnSelect && this.state.selectedItem !== nextState.selectedItem) return`),
while the claim says the reset happens exactly then. -/
theorem c4_reset_condition_cex :
    c4ex.props.closeOnSelect = false ∧
    (c4ex.handleSelect ⟨1, false⟩ 0).1.state.isOpen = true ∧
    (c4ex.handleSelect ⟨1, false⟩ 0).1.state.selectedItem = some ⟨1, false⟩ ∧
    c4ex.state.selectedItem ≠ some ⟨1, false⟩ ∧
    c4ex.props.defaultHighlightedIndex.getD 0 = 0 ∧
    (c4ex.componentWillReceiveProps false (some ⟨1, false⟩)).state.highlightedIndex = 7 := by
  decide

/-- C4 (amended): given `closeOnSelect = false`, selecting item X leaves the
menu open (and the highlight untouched) and records `selectedItem = X`; on the
props-receive pass the highlight is reset to the default index only if X
**equals** the previously selected item — if X differs, the highlight is left
unchanged. -/
theorem c4_selection_preserves_browsing {T : Type} [DecidableEq T] (c : AC T)
    (X : T) (ev : Nat) (hclose : c.props.closeOnSelect = false) :
    (c.handleSelect X ev).1.state.isOpen = c.state.isOpen ∧
    (c.handleSelect X ev).1.state.highlightedIndex = c.state.highlightedIndex ∧
    (c.handleSelect X ev).1.state.selectedItem = some X ∧
    (c.handleSelect X ev).2 = [Effect.onSelect X c.state ev] ∧
    (c.state.selectedItem ≠ some X →
      (c.componentWillReceiveProps false (some X)).state.highlightedIndex
        = c.state.highlightedIndex) ∧
    (c.state.selectedItem = some X →
      (c.componentWillReceiveProps false (some X)).state.highlightedIndex
        = c.props.defaultHighlightedIndex.getD 0) := by
  refine ⟨by simp [AC.handleSelect, hclose], by simp [AC.handleSelect, hclose],
    by simp [AC.handleSelect, hclose], by simp [AC.handleSelect, hclose],
    fun hne => ?_, fun heq => ?_⟩
  · simp [AC.componentWillReceiveProps, bne_iff_ne, hne]
  · simp [AC.componentWillReceiveProps, heq, AC.resetHighlightState]

/-- Witness for C4: on the concrete fixtures, a differing selection leaves
the highlight at 7, a repeated selection resets it to 0. -/
theorem c4_selection_preserves_browsing_witness :
    c4ex.props.closeOnSelect = false ∧
    (c4ex.handleSelect ⟨2, false⟩ 0).1.state.isOpen = true ∧
    (c4ex.componentWillReceiveProps false (some ⟨2, false⟩)).state.highlightedIndex = 7 ∧
    (c4ex2.componentWillReceiveProps false (some ⟨1, false⟩)).state.highlightedIndex = 0 := by
  refine ⟨by decide, ?_, ?_, ?_⟩
  · rw [(c4_selection_preserves_browsing c4ex ⟨2, false⟩ 0 (by decide)).1]
    decide
  · rw [(c4_selection_preserves_browsing c4ex ⟨2, false⟩ 0 (by decide)).2.2.2.2.1 (by decide)]
    decide
  · rw [(c4_selection_preserves_browsing c4ex2 ⟨1, false⟩ 0 (by decide)).2.2.2.2.2 (by decide)]
    decide

/-- C5 counterexample: on a controlled instance with the highlight parked at
5 and default highlight index 0, `openMenu` fires `onOpen` but leaves the
highlight at 5 — `openMenu` returns *before* `resetHighlightState()` when
controlled, refuting "openMenu still performs its side effect of resetting
the highlight state". -/
theorem c5_controlled_highlight_cex :
    c5ex.isControlled = true ∧
    c5ex.props.defaultHighlightedIndex.getD 0 = 0 ∧
    c5ex.openMenu.2 = [Effect.onOpen] ∧
    c5ex.openMenu.1.state.highlightedIndex = 5 := by
  decide

/-- C5 (amended): in controlled mode, `openMenu` and `closeMenu` invoke the
`onOpen`/`onClose` notification callbacks but perform **no** internal state
change at all — in particular `openMenu` does not reset the highlight — and
the externally visible open/closed flag never changes from the caller-supplied
value. -/
theorem c5_controlled_freeze {T : Type} (c : AC T) (h : c.isControlled = true) :
    c.openMenu.2 = [Effect.onOpen] ∧
    c.openMenu.1 = c ∧
    c.openMenu.1.visibleIsOpen = c.visibleIsOpen ∧
    c.closeMenu.2 = [Effect.onClose] ∧
    c.closeMenu.1 = c ∧
    c.closeMenu.1.visibleIsOpen = c.visibleIsOpen := by
  simp [AC.openMenu, AC.closeMenu, h]

/-- Witness for C5: on the concrete controlled instance the notifications
fire, nothing changes internally, and the visible flag stays the
caller-supplied `false`. -/
theorem c5_controlled_freeze_witness :
    c5ex.isControlled = true ∧
    c5ex.openMenu.1 = c5ex ∧
    c5ex.closeMenu.1 = c5ex ∧
    c5ex.openMenu.1.visibleIsOpen = false :=
  ⟨by decide,
   (c5_controlled_freeze c5ex (by decide)).2.1,
   (c5_controlled_freeze c5ex (by decide)).2.2.2.2.1,
   by rw [(c5_controlled_freeze c5ex (by decide)).2.2.1]; decide⟩

/-- C6: input blur at time `tb` arms the 200-unit close timer; a menu
mousedown at time `tm` within that window arms the near-zero cancellation
timer, which fires first and clears the blur timer — so after all timers run,
no `onClose` (indeed no effect at all) was produced and the component,
including its open state, is unchanged; this holds for either delivery order
of the two events. -/
theorem c6_blur_then_menu_mousedown {T : Type} (c : AC T) (tb tm : Nat)
    (_h1 : tb ≤ tm) (h2 : tm < tb + 200) :
    ((((World.init c).inputBlur tb).menuMouseDown tm).runTimers.effects = [] ∧
     (((World.init c).inputBlur tb).menuMouseDown tm).runTimers.comp = c) ∧
    ((((World.init c).menuMouseDown tm).inputBlur tb).runTimers.effects = [] ∧
     (((World.init c).menuMouseDown tm).inputBlur tb).runTimers.comp = c) := by
  have hlt : tm < tb + 200 := h2
  constructor <;>
    · constructor <;>
      · simp [World.init, World.inputBlur, World.menuMouseDown, World.runTimers,
          World.fireTimer, World.dueTimer, World.pendingTimers, hlt]

/-- Witness for C6: blur at time 0, menu mousedown at time 100 on the open
two-item controller — nothing closes and no callback fires. -/
theorem c6_blur_then_menu_mousedown_witness :
    (0 : Nat) ≤ 100 ∧ (100 : Nat) < 0 + 200 ∧
    (((World.init c1ex).inputBlur 0).menuMouseDown 100).runTimers.effects = [] ∧
    (((World.init c1ex).inputBlur 0).menuMouseDown 100).runTimers.comp = c1ex :=
  ⟨by decide, by decide,
   (c6_blur_then_menu_mousedown c1ex 0 100 (by decide) (by decide)).1.1,
   (c6_blur_then_menu_mousedown c1ex 0 100 (by decide) (by decide)).1.2⟩

/-- C7: from any uncontrolled component with a pending blur-close timer
(deadline `d`), an outside-click notification at time `t` clears the blur
timer synchronously and changes nothing else during the handler; the close
runs only on the deferred near-zero tick, after which exactly one `onClose`
was produced, the blur timer's own callback never ran, and the menu is
closed. -/
theorem c7_outside_click_settle {T : Type} (c : AC T) (d t : Nat)
    (hctl : c.isControlled = false) :
    ((World.afterBlur c d).clickOutside t).blurDeadline = none ∧
    ((World.afterBlur c d).clickOutside t).effects = [] ∧
    ((World.afterBlur c d).clickOutside t).comp = c ∧
    ((World.afterBlur c d).clickOutside t).runTimers.effects = [Effect.onClose] ∧
    Effect.blurUserCallback ∉ ((World.afterBlur c d).clickOutside t).runTimers.effects ∧
    ((World.afterBlur c d).clickOutside t).runTimers.comp.state.isOpen = false := by
  refine ⟨rfl, rfl, rfl, ?_, ?_, ?_⟩ <;>
    simp [World.afterBlur, World.clickOutside, World.runTimers, World.fireTimer,
      World.dueTimer, World.pendingTimers, AC.closeMenu, hctl]

/-- Witness for C7: blur timer pending with deadline 300, outside click at
time 150 on the open uncontrolled two-item controller — one `onClose`, no
blur callback, menu closed. -/
theorem c7_outside_click_settle_witness :
    c1ex.isControlled = false ∧
    ((World.afterBlur c1ex 300).clickOutside 150).blurDeadline = none ∧
    ((World.afterBlur c1ex 300).clickOutside 150).runTimers.effects = [Effect.onClose] ∧
    ((World.afterBlur c1ex 300).clickOutside 150).runTimers.comp.state.isOpen = false :=
  ⟨by decide,
   (c7_outside_click_settle c1ex 300 150 (by decide)).1,
   (c7_outside_click_settle c1ex 300 150 (by decide)).2.2.2.1,
   (c7_outside_click_settle c1ex 300 150 (by decide)).2.2.2.2.2⟩

theorem closeMenu_effects {T : Type} (c : AC T) : c.closeMenu.2 = [Effect.onClose] := by
  unfold AC.closeMenu
  split <;> rfl

/-- C8 counterexample: with the default flags and a **disabled** item
registered at the highlighted index, an Enter keydown performs no selection
(no `onSelect`, state unchanged) yet still calls `preventDefault` — the code
calls it whenever a highlighted item exists, selection or not, refuting
"for Enter and Tab only when a selection actually occurs". -/
theorem c8_preventDefault_cex :
    c8ex.props.shouldSelectWithEnter = true ∧
    c8ex.items.getIdx c8ex.state.highlightedIndex = some (some ⟨1, true⟩) ∧
    ItemLike.disabled (⟨1, true⟩ : TestItem) = true ∧
    (c8ex.handleInputKeydown Key.enter 0).2 = [Effect.preventDefault] ∧
    (c8ex.handleInputKeydown Key.enter 0).1.state = c8ex.state := by
  decide

/-- C8 (amended): `preventDefault` is called exactly on — Enter when
`shouldSelectWithEnter` is set and a highlighted item exists in the registry
(whether or not that item is disabled; the selection itself additionally
requires it non-disabled), Tab analogously under `shouldSelectWithTab`, and
ArrowUp / ArrowDown always; never on Escape or other keys. -/
theorem c8_preventDefault_exact {T : Type} [ItemLike T] (c : AC T) (k : Key) (ev : Nat) :
    (Effect.preventDefault ∈ (c.handleInputKeydown k ev).2) ↔
      ((k = Key.enter ∧ c.props.shouldSelectWithEnter = true ∧
          c.items.hasIdx c.state.highlightedIndex = true) ∨
       (k = Key.tab ∧ c.props.shouldSelectWithTab = true ∧
          c.items.hasIdx c.state.highlightedIndex = true) ∨
       k = Key.arrowUp ∨ k = Key.arrowDown) := by
  cases k with
  | enter =>
      by_cases hh : c.items.hasIdx c.state.highlightedIndex = true <;>
        by_cases hs : c.props.shouldSelectWithEnter = true <;>
          simp [AC.handleInputKeydown, hh, hs, List.mem_append]
  | tab =>
      by_cases hh : c.items.hasIdx c.state.highlightedIndex = true <;>
        by_cases hs : c.props.shouldSelectWithTab = true <;>
          simp [AC.handleInputKeydown, hh, hs, List.mem_append]
  | arrowUp => simp [AC.handleInputKeydown]
  | arrowDown => simp [AC.handleInputKeydown]
  | escape => simp [AC.handleInputKeydown, closeMenu_effects]
  | other => simp [AC.handleInputKeydown]

/-- C9: calling `getItemProps` without an identifiable item logs the warning
and still registers the (missing) item under its computed index — but then
prop construction *throws* (`item['data-test-id']` on `undefined`), so
rendering is aborted, contradicting the claim's "never aborted by an
exception". -/
theorem c9_getItemProps_missing_item {T : Type} [ItemLike T] (c : AC T)
    (idx : Option Nat) :
    (c.getItemProps none idx).2.1 = [Effect.warn] ∧
    (c.getItemProps none idx).1.items
      = c.items.setIdx (idx.getD c.items.size) none ∧
    (c.getItemProps none idx).2.2 = Except.error () := by
  simp [AC.getItemProps]

/-- C10: an Enter or Tab keydown while the highlighted index has no entry in
the item registry is a complete no-op: no `onSelect`, no `preventDefault`, no
effect at all, and the component (state, registry, item count) is unchanged. -/
theorem c10_enter_tab_unregistered_noop {T : Type} [ItemLike T] (c : AC T)
    (k : Key) (ev : Nat)
    (hhas : c.items.hasIdx c.state.highlightedIndex = false)
    (hk : k = Key.enter ∨ k = Key.tab) :
    c.handleInputKeydown k ev = (c, []) := by
  rcases hk with rfl | rfl <;> simp [AC.handleInputKeydown, hhas]

/-- Witness for C10: the virtualized fixture (itemCount 100, one registered
item, highlight at 50) ignores Enter entirely. -/
theorem c10_enter_tab_unregistered_noop_witness :
    c10ex.items.hasIdx c10ex.state.highlightedIndex = false ∧
    c10ex.handleInputKeydown Key.enter 3 = (c10ex, []) :=
  ⟨by decide, c10_enter_tab_unregistered_noop c10ex Key.enter 3 (by decide) (Or.inl rfl)⟩
